import Mathlib

/-!
Verification development for the aztec3 ABI encoding layer:
`circuits/src/aztec3/circuits/abis/function_signature.hpp`,
`circuits/src/aztec3/circuits/abis/public_circuit_public_inputs.hpp`, and
`barretenberg/cpp/src/barretenberg/crypto/pedersen_commitment/rust_bind.hpp`.

Representations are shallowly embedded: a circuit wire is modelled by the
field value it carries, so `to_ct`/witnessing becomes a value-preserving
function, and both the native and the in-circuit pedersen compressions are
explicit function parameters `List V → GeneratorIndex → V`.
-/

namespace AztecAbi

/-- Modelled from the spec: the `GeneratorIndex` enumeration lives in
`constants.hpp`, which is not part of the sources here; per the spec it is a
fixed enumeration with one distinct tag per structure kind.  The sources use
the members `FUNCTION_SIGNATURE` and `PRIVATE_CIRCUIT_PUBLIC_INPUTS`. -/
inductive GeneratorIndex
  | FUNCTION_SIGNATURE
  | PRIVATE_CIRCUIT_PUBLIC_INPUTS
  | PUBLIC_CIRCUIT_PUBLIC_INPUTS
  | CALL_CONTEXT
  | STATE_TRANSITION
  | STATE_READ
deriving DecidableEq

/-- Modelled from the spec: the registry of structure kinds.  The spec's
domain-separation registry assigns each kind its own generator index. -/
inductive StructureKind
  | FunctionSignatureKind
  | PublicCircuitPublicInputsKind
  | PrivateCircuitPublicInputsKind
  | CallContextKind
  | StateTransitionKind
  | StateReadKind
deriving DecidableEq

/-- Modelled from the spec: "a small integer tag, one per distinct structure
kind" — the index that belongs to each kind in the registry. -/
def ownGeneratorIndex : StructureKind → GeneratorIndex
  | .FunctionSignatureKind => .FUNCTION_SIGNATURE
  | .PublicCircuitPublicInputsKind => .PUBLIC_CIRCUIT_PUBLIC_INPUTS
  | .PrivateCircuitPublicInputsKind => .PRIVATE_CIRCUIT_PUBLIC_INPUTS
  | .CallContextKind => .CALL_CONTEXT
  | .StateTransitionKind => .STATE_TRANSITION
  | .StateReadKind => .STATE_READ

/-- Structure `FunctionSignature` from `function_signature.hpp`: fields `vk_index`
(`NCT::uint32`), `is_private`, `is_constructor` (`NCT::boolean`), in this
order.  `U` and `B` are the representation's uint32 and boolean types
(native: `Nat` and `Bool`; circuit: wires, modelled by their values).
`operator==` is defaulted in the source, i.e. field-for-field equality. -/
structure FunctionSignature (U B : Type) where
  vk_index : U
  is_private : B
  is_constructor : B
deriving DecidableEq

/-- The generator index used by `FunctionSignature::hash`. -/
def fsGeneratorIndex : GeneratorIndex := .FUNCTION_SIGNATURE

/-- The vector `inputs` built by `FunctionSignature::hash`:
`{ fr(vk_index), fr(is_private), fr(is_constructor) }`.  `u2f` and `b2f` are
the representation's `fr(...)` conversions. -/
def fsHashInputs {U B V : Type} (u2f : U → V) (b2f : B → V)
    (fs : FunctionSignature U B) : List V :=
  [u2f fs.vk_index, b2f fs.is_private, b2f fs.is_constructor]

/-- Method `FunctionSignature::hash`: `NCT::compress(inputs, FUNCTION_SIGNATURE)`. -/
def fsHash {U B V : Type} (u2f : U → V) (b2f : B → V)
    (compress : List V → GeneratorIndex → V) (fs : FunctionSignature U B) : V :=
  compress (fsHashInputs u2f b2f fs) fsGeneratorIndex

/-- Method `FunctionSignature::to_circuit_type`: each field is witnessed into the
target composer via `to_ct`, in declaration order.  `ctU`/`ctB` are the
`to_ct` conversions (circuit wires are modelled by their values). -/
def fsToCircuitType {U B V : Type} (ctU : U → V) (ctB : B → V)
    (fs : FunctionSignature U B) : FunctionSignature V V :=
  { vk_index := ctU fs.vk_index
    is_private := ctB fs.is_private
    is_constructor := ctB fs.is_constructor }

/-- Method `FunctionSignature::set_public`: marks `fr(vk_index)`, `fr(is_private)`,
`fr(is_constructor)` public, in that order; modelled as the ordered list of
wires marked public. -/
def fsSetPublic {V : Type} (fs : FunctionSignature V V) : List V :=
  [fs.vk_index, fs.is_private, fs.is_constructor]

/-- The initializer list of `FunctionSignature::empty()` in the source:
`return { 0, 0, 0, 0, 0 };` — five zero initializers. -/
def fsEmptyInitializers : List Nat := [0, 0, 0, 0, 0]

/-- The declared fields of `FunctionSignature`, in declaration order. -/
def fsFieldNames : List String := ["vk_index", "is_private", "is_constructor"]

/-- Modelled from the spec: the zero-valued empty `FunctionSignature` the
lifecycle section describes (the source's `empty()` is ill-formed, see
`fsEmptyInitializers`). -/
def fsEmptySpec : FunctionSignature Nat Bool :=
  { vk_index := 0, is_private := false, is_constructor := false }

/-- Modelled from the spec: `CallContext` (`call_context.hpp` is not among
the sources).  It is an ABI structure over the representation's field type;
its scalar fields are modelled as an ordered list. -/
structure CallContext (V : Type) where
  fields : List V
deriving DecidableEq

/-- Modelled from the spec: `CallContext::to_circuit_type` witnesses each
scalar field in order. -/
def ccToCircuitType {V W : Type} (ct : V → W) (cc : CallContext V) : CallContext W :=
  { fields := cc.fields.map ct }

/-- Modelled from the spec: `StateTransition` (`state_transition.hpp` is not
among the sources); an ABI structure whose scalar fields are an ordered
list. -/
structure StateTransition (V : Type) where
  fields : List V
deriving DecidableEq

/-- Modelled from the spec: `StateTransition::hash` flattens the structure's
fields in declaration order and compresses under its own generator index. -/
def stHash {V : Type} (compress : List V → GeneratorIndex → V)
    (st : StateTransition V) : V :=
  compress st.fields .STATE_TRANSITION

/-- Modelled from the spec: `StateTransition::to_circuit_type` witnesses each
scalar field in order. -/
def stToCircuitType {V W : Type} (ct : V → W) (st : StateTransition V) : StateTransition W :=
  { fields := st.fields.map ct }

/-- Modelled from the spec: `StateRead` (`state_read.hpp` is not among the
sources); an ABI structure whose scalar fields are an ordered list. -/
structure StateRead (V : Type) where
  fields : List V
deriving DecidableEq

/-- Modelled from the spec: `StateRead::hash` flattens the structure's fields
in declaration order and compresses under its own generator index. -/
def srHash {V : Type} (compress : List V → GeneratorIndex → V)
    (sr : StateRead V) : V :=
  compress sr.fields .STATE_READ

/-- Modelled from the spec: `StateRead::to_circuit_type` witnesses each
scalar field in order. -/
def srToCircuitType {V W : Type} (ct : V → W) (sr : StateRead V) : StateRead W :=
  { fields := sr.fields.map ct }

/-- Structure `PublicCircuitPublicInputs` from `public_circuit_public_inputs.hpp`, with
its fields in declaration order.  The `std::array<fr, N>` members are
modelled as lists (the protocol-constant lengths from `constants.hpp` are
not among the sources; see `ProtocolConstants`).  `V` is the
representation's field type (`fr`; an `address` is also a field value). -/
structure PublicCircuitPublicInputs (V : Type) where
  call_context : CallContext V
  custom_inputs : List V
  custom_outputs : List V
  emitted_events : List V
  state_transitions : List (StateTransition V)
  state_reads : List (StateRead V)
  public_call_stack : List V
  contract_deployment_call_stack : List V
  partial_l1_call_stack : List V
  old_private_data_tree_root : V
  prover_address : V
deriving DecidableEq

/-- Method `PublicCircuitPublicInputs::spread_arr_into_vec`: appends the whole array
at the end of the growing `inputs` vector. -/
def spread_arr_into_vec {V : Type} (arr vec : List V) : List V :=
  vec ++ arr

/-- The `inputs` vector built by `PublicCircuitPublicInputs::hash`, step by
step as in the source: `call_context` is deliberately omitted (see the NOTE
in the source), the scalar arrays are spread in declaration order, each
`StateTransition`/`StateRead` contributes its own `hash()` (`to_hashes`),
and `old_private_data_tree_root` is pushed last.  `prover_address` is never
pushed. -/
def pcpiHashInputs {V : Type} (compress : List V → GeneratorIndex → V)
    (p : PublicCircuitPublicInputs V) : List V :=
  let inputs0 : List V := []
  let inputs1 := spread_arr_into_vec p.custom_inputs inputs0
  let inputs2 := spread_arr_into_vec p.custom_outputs inputs1
  let inputs3 := spread_arr_into_vec p.emitted_events inputs2
  let inputs4 := spread_arr_into_vec (p.state_transitions.map (stHash compress)) inputs3
  let inputs5 := spread_arr_into_vec (p.state_reads.map (srHash compress)) inputs4
  let inputs6 := spread_arr_into_vec p.public_call_stack inputs5
  let inputs7 := spread_arr_into_vec p.contract_deployment_call_stack inputs6
  let inputs8 := spread_arr_into_vec p.partial_l1_call_stack inputs7
  inputs8 ++ [p.old_private_data_tree_root]

/-- The generator index used by `PublicCircuitPublicInputs::hash` in the
source: `GeneratorIndex::PRIVATE_CIRCUIT_PUBLIC_INPUTS`. -/
def pcpiGeneratorIndex : GeneratorIndex := .PRIVATE_CIRCUIT_PUBLIC_INPUTS

/-- Method `PublicCircuitPublicInputs::hash`:
`NCT::compress(inputs, GeneratorIndex::PRIVATE_CIRCUIT_PUBLIC_INPUTS)`. -/
def pcpiHash {V : Type} (compress : List V → GeneratorIndex → V)
    (p : PublicCircuitPublicInputs V) : V :=
  compress (pcpiHashInputs compress p) pcpiGeneratorIndex

/-- The flattening that claim C4 describes, written from the claim's words:
every declared field in declaration order, arrays element-by-element,
sub-structures recursively flattened, `call_context` (and only
`call_context`) excluded — in particular `prover_address` is included.
Stated only to be compared against `pcpiHashInputs`. -/
def pcpiHashInputsClaim {V : Type} (p : PublicCircuitPublicInputs V) : List V :=
  p.custom_inputs ++ p.custom_outputs ++ p.emitted_events ++
    (p.state_transitions.map StateTransition.fields).foldr (· ++ ·) [] ++
    (p.state_reads.map StateRead.fields).foldr (· ++ ·) [] ++
    p.public_call_stack ++ p.contract_deployment_call_stack ++
    p.partial_l1_call_stack ++
    [p.old_private_data_tree_root] ++ [p.prover_address]

/-- Method `PublicCircuitPublicInputs::to_circuit_type`: `call_context` through its
own `to_circuit_type`, scalar arrays through `to_ct` element-wise,
`state_transitions`/`state_reads` mapped through their `to_circuit_type`,
then `old_private_data_tree_root` and `prover_address` through `to_ct`, in
declaration order.  `ct` is the value carried by the witnessed wire. -/
def pcpiToCircuitType {V W : Type} (ct : V → W)
    (p : PublicCircuitPublicInputs V) : PublicCircuitPublicInputs W :=
  { call_context := ccToCircuitType ct p.call_context
    custom_inputs := p.custom_inputs.map ct
    custom_outputs := p.custom_outputs.map ct
    emitted_events := p.emitted_events.map ct
    state_transitions := p.state_transitions.map (stToCircuitType ct)
    state_reads := p.state_reads.map (srToCircuitType ct)
    public_call_stack := p.public_call_stack.map ct
    contract_deployment_call_stack := p.contract_deployment_call_stack.map ct
    partial_l1_call_stack := p.partial_l1_call_stack.map ct
    old_private_data_tree_root := ct p.old_private_data_tree_root
    prover_address := ct p.prover_address }

/-!
## Serialization

Modelled from the spec where the primitive layer is concerned:
`common/serialize.hpp` is not among the sources; per the spec §4.5 the
encodings are fixed-width big-endian — 32-byte field elements and addresses,
4-byte unsigned integers, 1-byte booleans.  Buffers are lists of bytes
(`Nat`s); the C++ `read` walks a raw `uint8_t const*&` with no bounds
information, so the readers here are total: a missing byte reads as the
cursor would — whatever lies there (modelled as 0) — and never fails.
-/

/-- Big-endian fixed-width byte encoding of `v` in `w` bytes. -/
def bytesBE : Nat → Nat → List Nat
  | 0, _ => []
  | w + 1, v => v / 256 ^ w :: bytesBE w (v % 256 ^ w)

/-- Big-endian fixed-width read of `w` bytes, accumulator style; returns the
value and the remaining buffer.  Total: bytes past the end read as 0. -/
def readBE (acc : Nat) : Nat → List Nat → Nat × List Nat
  | 0, l => (acc, l)
  | w + 1, l => readBE (acc * 256 + l.headD 0) w l.tail

/-- One-byte boolean write: `serialize::write(buf, bool)`. -/
def writeBool (b : Bool) : List Nat :=
  [if b then 1 else 0]

/-- One-byte boolean read: `serialize::read(it, bool)` — nonzero is `true`. -/
def readBool (l : List Nat) : Bool × List Nat :=
  (l.headD 0 != 0, l.tail)

/-- Write an array of field elements element-by-element, 32 bytes each. -/
def writeFrList : List Nat → List Nat
  | [] => []
  | x :: xs => bytesBE 32 x ++ writeFrList xs

/-- Read `n` field elements, 32 bytes each. -/
def readFrList : Nat → List Nat → List Nat × List Nat
  | 0, l => ([], l)
  | n + 1, l =>
    let r := readBE 0 32 l
    let rs := readFrList n r.2
    (r.1 :: rs.1, rs.2)

/-- Function `write(buf, function_signature)`: `vk_index` (4-byte uint32), then
`is_private`, then `is_constructor` (1-byte booleans), exactly the source's
order. -/
def writeFunctionSignature (fs : FunctionSignature Nat Bool) : List Nat :=
  bytesBE 4 fs.vk_index ++ writeBool fs.is_private ++ writeBool fs.is_constructor

/-- Function `read(it, function_signature)`: consumes `vk_index`, `is_private`,
`is_constructor` in order and overwrites all three fields of the
destination, so the destination's prior value does not matter. -/
def readFunctionSignature (l : List Nat) : FunctionSignature Nat Bool × List Nat :=
  let r1 := readBE 0 4 l
  let r2 := readBool r1.2
  let r3 := readBool r2.2
  ({ vk_index := r1.1, is_private := r2.1, is_constructor := r3.1 }, r3.2)

/-- The fixed byte length of a serialized `FunctionSignature`: 4 + 1 + 1. -/
def fsByteLength : Nat := 6

/-- Modelled from the spec: the protocol-constant array lengths of
`constants.hpp` (not among the sources), plus the scalar-field counts of the
`StateTransition` and `StateRead` sub-structures.  All are fixed per
protocol, never resized; the development is parametric in them. -/
structure ProtocolConstants where
  CUSTOM_INPUTS_LENGTH : Nat
  CUSTOM_OUTPUTS_LENGTH : Nat
  EMITTED_EVENTS_LENGTH : Nat
  STATE_TRANSITIONS_LENGTH : Nat
  STATE_READS_LENGTH : Nat
  PUBLIC_CALL_STACK_LENGTH : Nat
  CONTRACT_DEPLOYMENT_CALL_STACK_LENGTH : Nat
  PARTIAL_L1_CALL_STACK_LENGTH : Nat
  STATE_TRANSITION_FIELDS : Nat
  STATE_READ_FIELDS : Nat

/-- Modelled from the spec: a `StateTransition` serializes as its scalar
fields in order, 32 bytes each. -/
def writeStateTransition (st : StateTransition Nat) : List Nat :=
  writeFrList st.fields

/-- Modelled from the spec: read one `StateTransition` of `nf` scalar
fields. -/
def readStateTransition (nf : Nat) (l : List Nat) : StateTransition Nat × List Nat :=
  let r := readFrList nf l
  (⟨r.1⟩, r.2)

/-- Write an array of `StateTransition`s element-by-element. -/
def writeStList : List (StateTransition Nat) → List Nat
  | [] => []
  | st :: sts => writeStateTransition st ++ writeStList sts

/-- Read `n` `StateTransition`s of `nf` fields each. -/
def readStList (nf : Nat) : Nat → List Nat → List (StateTransition Nat) × List Nat
  | 0, l => ([], l)
  | n + 1, l =>
    let r := readStateTransition nf l
    let rs := readStList nf n r.2
    (r.1 :: rs.1, rs.2)

/-- Modelled from the spec: a `StateRead` serializes as its scalar fields in
order, 32 bytes each. -/
def writeStateRead (sr : StateRead Nat) : List Nat :=
  writeFrList sr.fields

/-- Modelled from the spec: read one `StateRead` of `nf` scalar fields. -/
def readStateRead (nf : Nat) (l : List Nat) : StateRead Nat × List Nat :=
  let r := readFrList nf l
  (⟨r.1⟩, r.2)

/-- Write an array of `StateRead`s element-by-element. -/
def writeSrList : List (StateRead Nat) → List Nat
  | [] => []
  | sr :: srs => writeStateRead sr ++ writeSrList srs

/-- Read `n` `StateRead`s of `nf` fields each. -/
def readSrList (nf : Nat) : Nat → List Nat → List (StateRead Nat) × List Nat
  | 0, l => ([], l)
  | n + 1, l =>
    let r := readStateRead nf l
    let rs := readSrList nf n r.2
    (r.1 :: rs.1, rs.2)

/-- Function `write(buf, public_circuit_public_inputs)`, field order exactly as in the
source.  `call_context` is never written.  The source's line
`write(buf, pis.emitted_ouputs);` names a member that does not exist in the
structure (ill-formed C++, flagged by the spec's design notes); it has no
translation and is omitted. -/
def writePublicCircuitPublicInputs (p : PublicCircuitPublicInputs Nat) : List Nat :=
  writeFrList p.custom_inputs ++ writeFrList p.custom_outputs ++
    writeFrList p.emitted_events ++
    writeStList p.state_transitions ++ writeSrList p.state_reads ++
    writeFrList p.public_call_stack ++
    writeFrList p.contract_deployment_call_stack ++
    writeFrList p.partial_l1_call_stack ++
    bytesBE 32 p.old_private_data_tree_root ++ bytesBE 32 p.prover_address

/-- Function `read(it, public_circuit_public_inputs)`: reads into the destination
`pis` field by field in the source's order; `call_context` is never
assigned, so it keeps the destination's prior value.  The source's line
`read(it, pis.emitted_ouputs);` names a member that does not exist (see
`writePublicCircuitPublicInputs`) and is omitted. -/
def readPublicCircuitPublicInputs (k : ProtocolConstants) (l : List Nat)
    (pis : PublicCircuitPublicInputs Nat) : PublicCircuitPublicInputs Nat × List Nat :=
  let r1 := readFrList k.CUSTOM_INPUTS_LENGTH l
  let r2 := readFrList k.CUSTOM_OUTPUTS_LENGTH r1.2
  let r3 := readFrList k.EMITTED_EVENTS_LENGTH r2.2
  let r4 := readStList k.STATE_TRANSITION_FIELDS k.STATE_TRANSITIONS_LENGTH r3.2
  let r5 := readSrList k.STATE_READ_FIELDS k.STATE_READS_LENGTH r4.2
  let r6 := readFrList k.PUBLIC_CALL_STACK_LENGTH r5.2
  let r7 := readFrList k.CONTRACT_DEPLOYMENT_CALL_STACK_LENGTH r6.2
  let r8 := readFrList k.PARTIAL_L1_CALL_STACK_LENGTH r7.2
  let r9 := readBE 0 32 r8.2
  let r10 := readBE 0 32 r9.2
  ({ pis with
      custom_inputs := r1.1
      custom_outputs := r2.1
      emitted_events := r3.1
      state_transitions := r4.1
      state_reads := r5.1
      public_call_stack := r6.1
      contract_deployment_call_stack := r7.1
      partial_l1_call_stack := r8.1
      old_private_data_tree_root := r9.1
      prover_address := r10.1 }, r10.2)

/-- The fixed byte length of the serialized (non-`call_context`) content of a
`PublicCircuitPublicInputs` under protocol constants `k`. -/
def pcpiByteLength (k : ProtocolConstants) : Nat :=
  32 * k.CUSTOM_INPUTS_LENGTH + 32 * k.CUSTOM_OUTPUTS_LENGTH +
    32 * k.EMITTED_EVENTS_LENGTH +
    32 * k.STATE_TRANSITION_FIELDS * k.STATE_TRANSITIONS_LENGTH +
    32 * k.STATE_READ_FIELDS * k.STATE_READS_LENGTH +
    32 * k.PUBLIC_CALL_STACK_LENGTH +
    32 * k.CONTRACT_DEPLOYMENT_CALL_STACK_LENGTH +
    32 * k.PARTIAL_L1_CALL_STACK_LENGTH + 32 + 32

/-- A `PublicCircuitPublicInputs` instance is validly constructed for the
protocol constants `k` when all its fixed-length arrays have the protocol
lengths. -/
def PcpiWellFormed (k : ProtocolConstants) (p : PublicCircuitPublicInputs Nat) : Prop :=
  p.custom_inputs.length = k.CUSTOM_INPUTS_LENGTH ∧
    p.custom_outputs.length = k.CUSTOM_OUTPUTS_LENGTH ∧
    p.emitted_events.length = k.EMITTED_EVENTS_LENGTH ∧
    p.state_transitions.length = k.STATE_TRANSITIONS_LENGTH ∧
    (∀ st ∈ p.state_transitions, st.fields.length = k.STATE_TRANSITION_FIELDS) ∧
    p.state_reads.length = k.STATE_READS_LENGTH ∧
    (∀ sr ∈ p.state_reads, sr.fields.length = k.STATE_READ_FIELDS) ∧
    p.public_call_stack.length = k.PUBLIC_CALL_STACK_LENGTH ∧
    p.contract_deployment_call_stack.length = k.CONTRACT_DEPLOYMENT_CALL_STACK_LENGTH ∧
    p.partial_l1_call_stack.length = k.PARTIAL_L1_CALL_STACK_LENGTH

/-- Every scalar of the structure fits the canonical 32-byte encoding (field
elements are below the 256-bit bound; the modulus is smaller still). -/
def PcpiBounded (p : PublicCircuitPublicInputs Nat) : Prop :=
  (∀ x ∈ p.custom_inputs, x < 256 ^ 32) ∧
    (∀ x ∈ p.custom_outputs, x < 256 ^ 32) ∧
    (∀ x ∈ p.emitted_events, x < 256 ^ 32) ∧
    (∀ st ∈ p.state_transitions, ∀ x ∈ st.fields, x < 256 ^ 32) ∧
    (∀ sr ∈ p.state_reads, ∀ x ∈ sr.fields, x < 256 ^ 32) ∧
    (∀ x ∈ p.public_call_stack, x < 256 ^ 32) ∧
    (∀ x ∈ p.contract_deployment_call_stack, x < 256 ^ 32) ∧
    (∀ x ∈ p.partial_l1_call_stack, x < 256 ^ 32) ∧
    p.old_private_data_tree_root < 256 ^ 32 ∧
    p.prover_address < 256 ^ 32

/-!
## Representation preconditions

`to_circuit_type` opens with `static_assert(std::is_same<NativeTypes, NCT>)`
and `set_public` with the negated assertion.  The assertion is modelled as a
checked precondition on a representation tag: the wrong representation
yields an unrecoverable `Except.error` carrying the assertion text.
-/

/-- The two representation variants every ABI structure is generic over. -/
inductive Rep
  | Native
  | Circuit
deriving DecidableEq

/-- Assertion `static_assert(std::is_same<NativeTypes, NCT>::value)`. -/
def staticAssertNative : Rep → Except String Unit
  | .Native => .ok ()
  | .Circuit => .error "static_assert failed: std::is_same<NativeTypes, NCT>::value"

/-- Assertion `static_assert(!(std::is_same<NativeTypes, NCT>::value))`. -/
def staticAssertCircuit : Rep → Except String Unit
  | .Circuit => .ok ()
  | .Native => .error "static_assert failed: !std::is_same<NativeTypes, NCT>::value"

/-- Method `FunctionSignature::to_circuit_type` with its representation
precondition: fails (fatally, not recoverably) unless the receiver is in
`Native` representation. -/
def fsToCircuitTypeChecked {U B V : Type} (r : Rep) (ctU : U → V) (ctB : B → V)
    (fs : FunctionSignature U B) : Except String (FunctionSignature V V) :=
  match staticAssertNative r with
  | .ok _ => .ok (fsToCircuitType ctU ctB fs)
  | .error e => .error e

/-- Method `FunctionSignature::set_public` with its representation precondition:
fails unless the receiver is in `Circuit` representation. -/
def fsSetPublicChecked {V : Type} (r : Rep)
    (fs : FunctionSignature V V) : Except String (List V) :=
  match staticAssertCircuit r with
  | .ok _ => .ok (fsSetPublic fs)
  | .error e => .error e

/-- Method `PublicCircuitPublicInputs::to_circuit_type` with its representation
precondition: fails unless the receiver is in `Native` representation. -/
def pcpiToCircuitTypeChecked {V W : Type} (r : Rep) (ct : V → W)
    (p : PublicCircuitPublicInputs V) : Except String (PublicCircuitPublicInputs W) :=
  match staticAssertNative r with
  | .ok _ => .ok (pcpiToCircuitType ct p)
  | .error e => .error e

/-!
## FFI boundary (`rust_bind.hpp`)

The header declares the exported pedersen operations.  Parameter and return
types are transliterated; the null-on-success / error-string-on-failure
behaviour of the returned `const char *` is the spec's description of the
boundary (the implementing `.cpp` is not among the sources).
-/

/-- The C types appearing in the export signatures of `rust_bind.hpp`. -/
inductive FfiType
  | frInBuf
  | frVecInBuf
  | frOutBuf
  | u32ConstPtr
  | byteConstPtr
deriving DecidableEq

/-- One parameter of an exported operation: its name and its C type. -/
structure FfiParam where
  name : String
  type : FfiType
deriving DecidableEq

/-- One exported operation: its name, parameters in order, and whether it
returns `const char *` (the error-string-or-null convention). -/
structure FfiExport where
  name : String
  params : List FfiParam
  returnsConstCharPtr : Bool
deriving DecidableEq

/-- Declaration `const char * pedersen___init();`. -/
def pedersenInitDecl : FfiExport :=
  { name := "pedersen___init", params := [], returnsConstCharPtr := true }

/-- The ten exports of `rust_bind.hpp`, in declaration order. -/
def pedersenExports : List FfiExport :=
  [pedersenInitDecl,
   { name := "pedersen___compress_fields"
     params := [⟨"left", .frInBuf⟩, ⟨"right", .frInBuf⟩, ⟨"result", .frOutBuf⟩]
     returnsConstCharPtr := true },
   { name := "pedersen___plookup_compress_fields"
     params := [⟨"left", .frInBuf⟩, ⟨"right", .frInBuf⟩, ⟨"result", .frOutBuf⟩]
     returnsConstCharPtr := true },
   { name := "pedersen___compress"
     params := [⟨"inputs_buffer", .frVecInBuf⟩, ⟨"output", .frOutBuf⟩]
     returnsConstCharPtr := true },
   { name := "pedersen___plookup_compress"
     params := [⟨"inputs_buffer", .frVecInBuf⟩, ⟨"output", .frOutBuf⟩]
     returnsConstCharPtr := true },
   { name := "pedersen___compress_with_hash_index"
     params := [⟨"inputs_buffer", .frVecInBuf⟩, ⟨"hash_index", .u32ConstPtr⟩,
                ⟨"output", .frOutBuf⟩]
     returnsConstCharPtr := true },
   { name := "pedersen___commit"
     params := [⟨"inputs_buffer", .frVecInBuf⟩, ⟨"output", .frOutBuf⟩]
     returnsConstCharPtr := true },
   { name := "pedersen___plookup_commit"
     params := [⟨"inputs_buffer", .frVecInBuf⟩, ⟨"output", .frOutBuf⟩]
     returnsConstCharPtr := true },
   { name := "pedersen___plookup_commit_with_hash_index"
     params := [⟨"inputs_buffer", .frVecInBuf⟩, ⟨"hash_index", .u32ConstPtr⟩,
                ⟨"output", .frOutBuf⟩]
     returnsConstCharPtr := true },
   { name := "pedersen___buffer_to_field"
     params := [⟨"data", .byteConstPtr⟩, ⟨"r", .frOutBuf⟩]
     returnsConstCharPtr := true }]

/-- The export takes a caller-provided output buffer (`fr::out_buf`). -/
def hasOutputBuffer (f : FfiExport) : Bool :=
  f.params.any fun p => p.type == .frOutBuf

/-- Every parameter named `hash_index` is a `uint32_t const*`, i.e. a 4-byte
unsigned integer passed by pointer. -/
def hashIndexParamsAreU32 (f : FfiExport) : Bool :=
  f.params.all fun p => p.name != "hash_index" || p.type == .u32ConstPtr

/-!
## Concrete test vectors

Closed instances used by witnesses and counterexamples.
-/

/-- A numbering of the generator indices, injective by construction; stands
in for the concrete pedersen generators when a witness needs a compression
function that separates domains. -/
def giNat : GeneratorIndex → Nat
  | .FUNCTION_SIGNATURE => 0
  | .PRIVATE_CIRCUIT_PUBLIC_INPUTS => 1
  | .PUBLIC_CIRCUIT_PUBLIC_INPUTS => 2
  | .CALL_CONTEXT => 3
  | .STATE_TRANSITION => 4
  | .STATE_READ => 5

/-- Protocol constants with every array length zero. -/
def kZero : ProtocolConstants :=
  { CUSTOM_INPUTS_LENGTH := 0, CUSTOM_OUTPUTS_LENGTH := 0,
    EMITTED_EVENTS_LENGTH := 0, STATE_TRANSITIONS_LENGTH := 0,
    STATE_READS_LENGTH := 0, PUBLIC_CALL_STACK_LENGTH := 0,
    CONTRACT_DEPLOYMENT_CALL_STACK_LENGTH := 0,
    PARTIAL_L1_CALL_STACK_LENGTH := 0,
    STATE_TRANSITION_FIELDS := 0, STATE_READ_FIELDS := 0 }

/-- Protocol constants with every array length one. -/
def kOne : ProtocolConstants :=
  { CUSTOM_INPUTS_LENGTH := 1, CUSTOM_OUTPUTS_LENGTH := 1,
    EMITTED_EVENTS_LENGTH := 1, STATE_TRANSITIONS_LENGTH := 1,
    STATE_READS_LENGTH := 1, PUBLIC_CALL_STACK_LENGTH := 1,
    CONTRACT_DEPLOYMENT_CALL_STACK_LENGTH := 1,
    PARTIAL_L1_CALL_STACK_LENGTH := 1,
    STATE_TRANSITION_FIELDS := 1, STATE_READ_FIELDS := 1 }

/-- A default-constructed (zero-valued) native `PublicCircuitPublicInputs`,
as the destination handed to `read`. -/
def pcpiFresh : PublicCircuitPublicInputs Nat :=
  { call_context := ⟨[]⟩
    custom_inputs := [], custom_outputs := [], emitted_events := []
    state_transitions := [], state_reads := []
    public_call_stack := [], contract_deployment_call_stack := []
    partial_l1_call_stack := []
    old_private_data_tree_root := 0, prover_address := 0 }

/-- A valid instance for `kZero` whose `call_context` is not the default. -/
def pcpiCcOne : PublicCircuitPublicInputs Nat :=
  { pcpiFresh with call_context := ⟨[1]⟩ }

/-- A valid instance for `kOne`, every field populated and distinct. -/
def pcpiOne : PublicCircuitPublicInputs Nat :=
  { call_context := ⟨[9]⟩
    custom_inputs := [1], custom_outputs := [2], emitted_events := [3]
    state_transitions := [⟨[4]⟩], state_reads := [⟨[5]⟩]
    public_call_stack := [6], contract_deployment_call_stack := [7]
    partial_l1_call_stack := [8]
    old_private_data_tree_root := 10, prover_address := 11 }

/-- An instance whose flattened hash sequence `[7, 1, 0]` coincides with that
of `FunctionSignature { 7, true, false }`. -/
def pcpiCollision : PublicCircuitPublicInputs Nat :=
  { pcpiFresh with custom_inputs := [7, 1] }

/-- An instance distinguished from `pcpiFresh` only by `prover_address`. -/
def pcpiProverFive : PublicCircuitPublicInputs Nat :=
  { pcpiFresh with prover_address := 5 }

/-!
## Helper lemmas
-/

/-- Reading back a big-endian encoding recovers the value and leaves the rest
of the buffer untouched. -/
theorem readBE_bytesBE (w : Nat) :
    ∀ (acc v : Nat) (rest : List Nat), v < 256 ^ w →
      readBE acc w (bytesBE w v ++ rest) = (acc * 256 ^ w + v, rest) := by
  induction w with
  | zero =>
    intro acc v rest hv
    have hv0 : v = 0 := by simpa using hv
    simp [bytesBE, readBE, hv0]
  | succ w ih =>
    intro acc v rest hv
    have hpos : 0 < 256 ^ w := Nat.pos_pow_of_pos w (by norm_num)
    have hmod : v % 256 ^ w < 256 ^ w := Nat.mod_lt _ hpos
    simp only [bytesBE, List.cons_append, readBE, List.headD_cons, List.tail_cons]
    rw [ih _ _ _ hmod]
    have hstep : (acc * 256 + v / 256 ^ w) * 256 ^ w + v % 256 ^ w =
        acc * 256 ^ (w + 1) + v := by
      rw [Nat.add_mul, Nat.add_assoc, Nat.div_add_mod', pow_succ]
      ring
    rw [hstep]

/-- Reading back a 1-byte boolean recovers it. -/
theorem readBool_writeBool (b : Bool) (rest : List Nat) :
    readBool (writeBool b ++ rest) = (b, rest) := by
  cases b <;> simp [readBool, writeBool]

/-- Reading back an element-wise written list of field elements recovers it. -/
theorem readFrList_writeFrList :
    ∀ (xs rest : List Nat), (∀ x ∈ xs, x < 256 ^ 32) →
      readFrList xs.length (writeFrList xs ++ rest) = (xs, rest) := by
  intro xs
  induction xs with
  | nil => intro rest _; simp [writeFrList, readFrList]
  | cons x xs ih =>
    intro rest hb
    simp only [writeFrList, List.length_cons, readFrList, List.append_assoc]
    rw [readBE_bytesBE 32 0 x _ (hb x (by simp))]
    simp only [Nat.zero_mul, Nat.zero_add]
    rw [ih rest (fun y hy => hb y (by simp [hy]))]

/-- Reading back an element-wise written list of `StateTransition`s recovers
it, provided every element has the fixed field count. -/
theorem readStList_writeStList (nf : Nat) :
    ∀ (sts : List (StateTransition Nat)) (rest : List Nat),
      (∀ st ∈ sts, st.fields.length = nf) →
      (∀ st ∈ sts, ∀ x ∈ st.fields, x < 256 ^ 32) →
      readStList nf sts.length (writeStList sts ++ rest) = (sts, rest) := by
  intro sts
  induction sts with
  | nil => intro rest _ _; simp [writeStList, readStList]
  | cons st sts ih =>
    intro rest hlen hb
    simp only [writeStList, writeStateTransition, List.length_cons, readStList,
      readStateTransition, List.append_assoc]
    have h1 : st.fields.length = nf := hlen st (by simp)
    have hrd := readFrList_writeFrList st.fields (writeStList sts ++ rest) (hb st (by simp))
    rw [h1] at hrd
    rw [hrd]
    rw [ih rest (fun s hs => hlen s (by simp [hs])) (fun s hs => hb s (by simp [hs]))]

/-- Reading back an element-wise written list of `StateRead`s recovers it,
provided every element has the fixed field count. -/
theorem readSrList_writeSrList (nf : Nat) :
    ∀ (srs : List (StateRead Nat)) (rest : List Nat),
      (∀ sr ∈ srs, sr.fields.length = nf) →
      (∀ sr ∈ srs, ∀ x ∈ sr.fields, x < 256 ^ 32) →
      readSrList nf srs.length (writeSrList srs ++ rest) = (srs, rest) := by
  intro srs
  induction srs with
  | nil => intro rest _ _; simp [writeSrList, readSrList]
  | cons sr srs ih =>
    intro rest hlen hb
    simp only [writeSrList, writeStateRead, List.length_cons, readSrList,
      readStateRead, List.append_assoc]
    have h1 : sr.fields.length = nf := hlen sr (by simp)
    have hrd := readFrList_writeFrList sr.fields (writeSrList srs ++ rest) (hb sr (by simp))
    rw [h1] at hrd
    rw [hrd]
    rw [ih rest (fun s hs => hlen s (by simp [hs])) (fun s hs => hb s (by simp [hs]))]

/-- The serialization round trip for `FunctionSignature`. -/
theorem readFunctionSignature_writeFunctionSignature
    (fs : FunctionSignature Nat Bool) (rest : List Nat)
    (h : fs.vk_index < 2 ^ 32) :
    readFunctionSignature (writeFunctionSignature fs ++ rest) = (fs, rest) := by
  have h4 : fs.vk_index < 256 ^ 4 := by norm_num at h ⊢; omega
  simp only [writeFunctionSignature, readFunctionSignature, List.append_assoc]
  rw [readBE_bytesBE 4 0 fs.vk_index _ h4]
  simp only [Nat.zero_mul, Nat.zero_add]
  rw [readBool_writeBool, readBool_writeBool]

/-- The serialization round trip for `PublicCircuitPublicInputs`: every
serialized field is recovered; `call_context` keeps the destination's prior
value. -/
theorem readPcpi_writePcpi (k : ProtocolConstants)
    (p pis0 : PublicCircuitPublicInputs Nat) (rest : List Nat)
    (hwf : PcpiWellFormed k p) (hb : PcpiBounded p) :
    readPublicCircuitPublicInputs k (writePublicCircuitPublicInputs p ++ rest) pis0 =
      ({ p with call_context := pis0.call_context }, rest) := by
  obtain ⟨h1, h2, h3, h4, h5, h6, h7, h8, h9, h10⟩ := hwf
  obtain ⟨b1, b2, b3, b4, b5, b6, b7, b8, b9, b10⟩ := hb
  simp only [readPublicCircuitPublicInputs, writePublicCircuitPublicInputs,
    List.append_assoc]
  rw [← h1, readFrList_writeFrList _ _ b1]
  rw [← h2, readFrList_writeFrList _ _ b2]
  rw [← h3, readFrList_writeFrList _ _ b3]
  rw [← h4, readStList_writeStList _ _ _ h5 b4]
  rw [← h6, readSrList_writeSrList _ _ _ h7 b5]
  rw [← h8, readFrList_writeFrList _ _ b6]
  rw [← h9, readFrList_writeFrList _ _ b7]
  rw [← h10, readFrList_writeFrList _ _ b8]
  rw [readBE_bytesBE 32 0 _ _ b9]
  rw [readBE_bytesBE 32 0 _ _ b10]
  simp

/-- The reader always advances the cursor by exactly `w` bytes, whether or
not the buffer holds that many. -/
theorem readBE_drop (w : Nat) :
    ∀ (acc : Nat) (l : List Nat), (readBE acc w l).2 = l.drop w := by
  induction w with
  | zero => intro acc l; simp [readBE]
  | succ w ih => intro acc l; cases l <;> simp [readBE, ih]

/-- Reading `n` field elements always advances the cursor by `32 * n`. -/
theorem readFrList_drop (n : Nat) :
    ∀ l : List Nat, (readFrList n l).2 = l.drop (32 * n) := by
  induction n with
  | zero => intro l; simp [readFrList]
  | succ n ih =>
    intro l
    simp only [readFrList, ih, readBE_drop, List.drop_drop]
    congr 1
    ring

/-- Reading `n` `StateTransition`s of `nf` fields always advances the cursor
by `32 * nf * n`. -/
theorem readStList_drop (nf n : Nat) :
    ∀ l : List Nat, (readStList nf n l).2 = l.drop (32 * nf * n) := by
  induction n with
  | zero => intro l; simp [readStList]
  | succ n ih =>
    intro l
    simp only [readStList, readStateTransition, ih, readFrList_drop, List.drop_drop]
    congr 1
    ring

/-- Reading `n` `StateRead`s of `nf` fields always advances the cursor by
`32 * nf * n`. -/
theorem readSrList_drop (nf n : Nat) :
    ∀ l : List Nat, (readSrList nf n l).2 = l.drop (32 * nf * n) := by
  induction n with
  | zero => intro l; simp [readSrList]
  | succ n ih =>
    intro l
    simp only [readSrList, readStateRead, ih, readFrList_drop, List.drop_drop]
    congr 1
    ring

/-- Function `read` for `FunctionSignature` always advances the cursor by the fixed
byte length, regardless of the buffer's actual length. -/
theorem readFunctionSignature_drop (l : List Nat) :
    (readFunctionSignature l).2 = l.drop fsByteLength := by
  simp only [readFunctionSignature, readBool, readBE_drop, fsByteLength]
  rw [← List.drop_one, ← List.drop_one, List.drop_drop, List.drop_drop]

/-- Function `read` for `PublicCircuitPublicInputs` always advances the cursor by the
fixed byte length, regardless of the buffer's actual length. -/
theorem readPcpi_drop (k : ProtocolConstants) (l : List Nat)
    (pis : PublicCircuitPublicInputs Nat) :
    (readPublicCircuitPublicInputs k l pis).2 = l.drop (pcpiByteLength k) := by
  simp only [readPublicCircuitPublicInputs, readBE_drop, readFrList_drop,
    readStList_drop, readSrList_drop, List.drop_drop, pcpiByteLength]

/-!
## Claims
-/

/-- C1: Conversion soundness.  For every fully-populated native structure
(`FunctionSignature` or `PublicCircuitPublicInputs`), the native hash equals
the circuit hash of its `to_circuit_type` conversion whenever the witnessing
conversions preserve the field values and the two compress implementations
agree on identical field values; the flattened scalar sequence handed to
compress is the same in both representations (the generator index is the
same by construction, both hashes being instances of one generic `hash`). -/
theorem conversion_soundness (V : Type)
    (u2f : Nat → V) (b2f : Bool → V) (ctU : Nat → V) (ctB : Bool → V)
    (ctV : V → V) (u2fC b2fC : V → V)
    (compressN compressC : List V → GeneratorIndex → V)
    (hU : ∀ u, u2fC (ctU u) = u2f u)
    (hB : ∀ b, b2fC (ctB b) = b2f b)
    (hV : ∀ v, ctV v = v)
    (hC : ∀ s i, compressC s i = compressN s i) :
    (∀ fs : FunctionSignature Nat Bool,
        fsHashInputs u2fC b2fC (fsToCircuitType ctU ctB fs) = fsHashInputs u2f b2f fs ∧
        fsHash u2fC b2fC compressC (fsToCircuitType ctU ctB fs) =
          fsHash u2f b2f compressN fs) ∧
    (∀ p : PublicCircuitPublicInputs V,
        pcpiHashInputs compressC (pcpiToCircuitType ctV p) = pcpiHashInputs compressN p ∧
        pcpiHash compressC (pcpiToCircuitType ctV p) = pcpiHash compressN p) := by
  have hV' : ctV = fun v => v := funext hV
  have hC' : compressC = compressN := funext fun s => funext fun i => hC s i
  constructor
  · intro fs
    constructor
    · simp [fsHashInputs, fsToCircuitType, hU, hB]
    · simp [fsHash, fsHashInputs, fsToCircuitType, hU, hB, hC']
  · intro p
    have hst : stToCircuitType (fun v => v) =
        (id : StateTransition V → StateTransition V) := by
      funext st
      cases st
      simp [stToCircuitType]
    have hsr : srToCircuitType (fun v => v) =
        (id : StateRead V → StateRead V) := by
      funext sr
      cases sr
      simp [srToCircuitType]
    have hid : pcpiToCircuitType ctV p = p := by
      rcases p with ⟨⟨ccf⟩, ci, co, ee, sts, srs, pc, cd, pl, rt, pa⟩
      rw [hV']
      simp [pcpiToCircuitType, ccToCircuitType, hst, hsr]
    rw [hid, hC']
    exact ⟨rfl, rfl⟩

/-- C1 witness: both halves instantiated at the identity witnessing
conversions over `Nat` and a concrete compression, evaluated at
`FunctionSignature { 7, true, false }`. -/
theorem conversion_soundness_witness :
    fsHash (fun v => v) (fun v => v) (fun s _ => s.sum)
        (fsToCircuitType (fun u => u) (fun b => if b then 1 else 0)
          (FunctionSignature.mk 7 true false)) =
      fsHash (fun u => u) (fun b => if b then 1 else 0) (fun s _ => s.sum)
        (FunctionSignature.mk 7 true false) :=
  ((conversion_soundness Nat (fun u => u) (fun b => if b then 1 else 0)
      (fun u => u) (fun b => if b then 1 else 0) (fun v => v) (fun v => v)
      (fun v => v) (fun s _ => s.sum) (fun s _ => s.sum)
      (fun _ => rfl) (fun _ => rfl) (fun _ => rfl) (fun _ _ => rfl)).1
    (FunctionSignature.mk 7 true false)).2

/-- C2 counterexample: `PublicCircuitPublicInputs::hash` compresses under
`GeneratorIndex::PRIVATE_CIRCUIT_PUBLIC_INPUTS` — the registry index of the
`PrivateCircuitPublicInputs` kind, not an index unique to its own kind. -/
theorem generator_index_not_own_kind :
    pcpiGeneratorIndex = ownGeneratorIndex StructureKind.PrivateCircuitPublicInputsKind ∧
    pcpiGeneratorIndex ≠ ownGeneratorIndex StructureKind.PublicCircuitPublicInputsKind := by
  decide

/-- C2 amended: `FunctionSignature` and `PublicCircuitPublicInputs` compress
under distinct generator indices (`FUNCTION_SIGNATURE` and
`PRIVATE_CIRCUIT_PUBLIC_INPUTS`), so for a compression that separates
domains, instances of the two kinds with identical flattened field sequences
hash differently. -/
theorem domain_separation_amended :
    fsGeneratorIndex ≠ pcpiGeneratorIndex ∧
    ∀ (V : Type) (u2f : Nat → V) (b2f : Bool → V)
      (compress : List V → GeneratorIndex → V),
      (∀ s i j, i ≠ j → compress s i ≠ compress s j) →
      ∀ (fs : FunctionSignature Nat Bool) (p : PublicCircuitPublicInputs V),
        fsHashInputs u2f b2f fs = pcpiHashInputs compress p →
        fsHash u2f b2f compress fs ≠ pcpiHash compress p := by
  refine ⟨by decide, ?_⟩
  intro V u2f b2f compress hinj fs p hin
  simp only [fsHash, pcpiHash, hin]
  exact hinj _ _ _ (by decide)

/-- C2 witness: a `FunctionSignature` and a `PublicCircuitPublicInputs` with
the identical flattened sequence `[7, 1, 0]` hash differently under an
index-separating compression. -/
theorem domain_separation_witness :
    fsHash (fun u => u) (fun b => if b then 1 else 0) (fun _ i => giNat i)
        (FunctionSignature.mk 7 true false) ≠
      pcpiHash (fun _ i => giNat i) pcpiCollision :=
  domain_separation_amended.2 Nat (fun u => u) (fun b => if b then 1 else 0)
    (fun _ i => giNat i)
    (fun _ i j hij hgn => hij (by cases i <;> cases j <;> simp_all [giNat]))
    (FunctionSignature.mk 7 true false) pcpiCollision (by decide)

/-- C3 counterexample: the round trip fails field-for-field for
`PublicCircuitPublicInputs` — `call_context` is neither written nor read, so
reading `write(pcpiCcOne)` into a default-constructed destination yields a
structure differing from `pcpiCcOne` at `call_context`. -/
theorem round_trip_counterexample :
    (readPublicCircuitPublicInputs kZero
        (writePublicCircuitPublicInputs pcpiCcOne ++ []) pcpiFresh).1 ≠ pcpiCcOne := by
  decide

/-- C3 amended: `read(write(x))` recovers `x` field-for-field for
`FunctionSignature`; for `PublicCircuitPublicInputs` it recovers every
serialized field, while `call_context` keeps the destination's prior value
(it is excluded from the serialization). -/
theorem round_trip_amended :
    (∀ (fs : FunctionSignature Nat Bool) (rest : List Nat), fs.vk_index < 2 ^ 32 →
        readFunctionSignature (writeFunctionSignature fs ++ rest) = (fs, rest)) ∧
    (∀ (k : ProtocolConstants) (p pis0 : PublicCircuitPublicInputs Nat)
        (rest : List Nat), PcpiWellFormed k p → PcpiBounded p →
        readPublicCircuitPublicInputs k (writePublicCircuitPublicInputs p ++ rest) pis0 =
          ({ p with call_context := pis0.call_context }, rest)) :=
  ⟨readFunctionSignature_writeFunctionSignature,
   fun k p pis0 rest hwf hb => readPcpi_writePcpi k p pis0 rest hwf hb⟩

/-- C3 witness: the round trip evaluated at a fully-populated instance for
unit array lengths. -/
theorem round_trip_witness :
    readPublicCircuitPublicInputs kOne
        (writePublicCircuitPublicInputs pcpiOne ++ []) pcpiFresh =
      ({ pcpiOne with call_context := pcpiFresh.call_context }, []) :=
  round_trip_amended.2 kOne pcpiOne pcpiFresh []
    (by unfold PcpiWellFormed; decide) (by unfold PcpiBounded; decide)

/-- C4 counterexample: the flattening computed by
`PublicCircuitPublicInputs::hash` is not the claimed one — at an instance
whose only nonzero field is `prover_address`, the code's sequence omits the
`prover_address` value the claim includes. -/
theorem hash_flattening_counterexample :
    pcpiHashInputs (fun _ _ => 0) pcpiProverFive ≠
      pcpiHashInputsClaim pcpiProverFive := by
  decide

/-- C4 amended: `hash()` flattens, in declaration order, `custom_inputs`,
`custom_outputs`, `emitted_events`, the element-wise hashes of
`state_transitions` and `state_reads` (each sub-structure contributes its own
hash as a single scalar, not its spread fields), `public_call_stack`,
`contract_deployment_call_stack`, `partial_l1_call_stack`, and
`old_private_data_tree_root`; both `call_context` and `prover_address` are
excluded; the sequence is compressed under
`GeneratorIndex::PRIVATE_CIRCUIT_PUBLIC_INPUTS`. -/
theorem hash_flattening_amended (V : Type)
    (compress : List V → GeneratorIndex → V) (p : PublicCircuitPublicInputs V) :
    pcpiHashInputs compress p =
      p.custom_inputs ++ p.custom_outputs ++ p.emitted_events ++
        p.state_transitions.map (stHash compress) ++
        p.state_reads.map (srHash compress) ++
        p.public_call_stack ++ p.contract_deployment_call_stack ++
        p.partial_l1_call_stack ++ [p.old_private_data_tree_root] ∧
    pcpiHash compress p =
      compress (pcpiHashInputs compress p)
        GeneratorIndex.PRIVATE_CIRCUIT_PUBLIC_INPUTS := by
  constructor
  · simp [pcpiHashInputs, spread_arr_into_vec]
  · rfl

/-- C5: exactly `vk_index`, `is_private`, `is_constructor`, in this order,
participate in equality (defaulted `operator==`), in hashing (the compress
input is `[fr(vk_index), fr(is_private), fr(is_constructor)]` under
`GeneratorIndex::FUNCTION_SIGNATURE`), and in serialization (`write` emits
and `read` consumes them in the same order, so the round trip holds). -/
theorem function_signature_field_invariant :
    (∀ x y : FunctionSignature Nat Bool,
        x = y ↔ x.vk_index = y.vk_index ∧ x.is_private = y.is_private ∧
          x.is_constructor = y.is_constructor) ∧
    (∀ (V : Type) (u2f : Nat → V) (b2f : Bool → V)
        (fs : FunctionSignature Nat Bool),
        fsHashInputs u2f b2f fs =
          [u2f fs.vk_index, b2f fs.is_private, b2f fs.is_constructor]) ∧
    fsGeneratorIndex = GeneratorIndex.FUNCTION_SIGNATURE ∧
    (∀ fs : FunctionSignature Nat Bool,
        writeFunctionSignature fs =
          bytesBE 4 fs.vk_index ++ writeBool fs.is_private ++
            writeBool fs.is_constructor) ∧
    (∀ (fs : FunctionSignature Nat Bool) (rest : List Nat), fs.vk_index < 2 ^ 32 →
        readFunctionSignature (writeFunctionSignature fs ++ rest) = (fs, rest)) := by
  refine ⟨?_, fun V u2f b2f fs => rfl, rfl, fun fs => rfl,
    readFunctionSignature_writeFunctionSignature⟩
  intro x y
  cases x
  cases y
  simp [FunctionSignature.mk.injEq, and_assoc]

/-- C5 witness: the invariant evaluated at `FunctionSignature {7, true,
false}` — the round trip holds there. -/
theorem function_signature_field_invariant_witness :
    readFunctionSignature
        (writeFunctionSignature (FunctionSignature.mk 7 true false) ++ []) =
      (FunctionSignature.mk 7 true false, []) :=
  function_signature_field_invariant.2.2.2.2 (FunctionSignature.mk 7 true false) []
    (by norm_num)

/-- C6: representation preconditions.  `to_circuit_type` fails immediately
(assertion-style, unrecoverable) on a structure already in `Circuit`
representation, for both `FunctionSignature` and
`PublicCircuitPublicInputs`; `set_public` fails on a structure in `Native`
representation; in the correct representation each operation succeeds. -/
theorem precondition_enforcement (V W : Type) (ctU : Nat → V) (ctB : Bool → V)
    (ct : V → W) (fs : FunctionSignature Nat Bool)
    (fsc : FunctionSignature V V) (p : PublicCircuitPublicInputs V) :
    fsToCircuitTypeChecked Rep.Circuit ctU ctB fs =
      Except.error "static_assert failed: std::is_same<NativeTypes, NCT>::value" ∧
    pcpiToCircuitTypeChecked Rep.Circuit ct p =
      Except.error "static_assert failed: std::is_same<NativeTypes, NCT>::value" ∧
    fsSetPublicChecked Rep.Native fsc =
      Except.error "static_assert failed: !std::is_same<NativeTypes, NCT>::value" ∧
    fsToCircuitTypeChecked Rep.Native ctU ctB fs =
      Except.ok (fsToCircuitType ctU ctB fs) ∧
    fsSetPublicChecked Rep.Circuit fsc = Except.ok (fsSetPublic fsc) :=
  ⟨rfl, rfl, rfl, rfl, rfl⟩

/-- C7 counterexample: `read` on the empty buffer — shorter than the
six-byte fixed length of `FunctionSignature` — returns an ordinary structure
and no error; the reader has no failure channel at all (the C++ signature is
`void read(uint8_t const*&, FunctionSignature&)`). -/
theorem read_short_buffer_counterexample :
    readFunctionSignature [] = (FunctionSignature.mk 0 false false, []) := by
  decide

/-- C7 amended: `read` has no error channel; it unconditionally returns a
structure and advances the cursor by the structure's fixed byte length, also
when the buffer is shorter than that length (the C++ reader walks a raw
pointer past the buffer's end). -/
theorem read_unchecked_amended :
    (∀ l : List Nat, ∃ fs, readFunctionSignature l = (fs, l.drop fsByteLength)) ∧
    (∀ (k : ProtocolConstants) (l : List Nat) (pis : PublicCircuitPublicInputs Nat),
        ∃ p, readPublicCircuitPublicInputs k l pis = (p, l.drop (pcpiByteLength k))) := by
  constructor
  · intro l
    exact ⟨(readFunctionSignature l).1, by rw [← readFunctionSignature_drop l]⟩
  · intro k l pis
    exact ⟨(readPublicCircuitPublicInputs k l pis).1, by rw [← readPcpi_drop k l pis]⟩

/-- C8: `FunctionSignature::empty()` is `return { 0, 0, 0, 0, 0 };` — five
initializers for a three-field aggregate, ill-formed C++ (too many
initializers), so it does not construct the zero-valued structure the spec
describes; the intended value is `fsEmptySpec`. -/
theorem empty_initializer_mismatch :
    fsEmptyInitializers.length = 5 ∧ fsFieldNames.length = 3 ∧
    fsEmptyInitializers.length ≠ fsFieldNames.length ∧
    fsEmptySpec = FunctionSignature.mk 0 false false := by
  refine ⟨rfl, rfl, by decide, rfl⟩

/-- C9 counterexample: `pedersen___init` is an exported operation, yet it
takes no caller-provided output buffer (its parameter list is empty). -/
theorem ffi_init_no_output_counterexample :
    pedersenExports[0]? = some pedersenInitDecl ∧
    hasOutputBuffer pedersenInitDecl = false ∧
    pedersenInitDecl.params = [] :=
  ⟨rfl, rfl, rfl⟩

/-- C9 amended: every exported pedersen operation returns `const char *`
(null on success, pointer to a UTF-8 error message on failure, per the
boundary's convention); every export except `pedersen___init` — which
produces no result value — writes its result into a caller-provided
`fr::out_buf`; every `hash_index` parameter is a `uint32_t const*`, a 4-byte
unsigned integer. -/
theorem ffi_convention_amended :
    (pedersenExports.all fun f => f.returnsConstCharPtr && hashIndexParamsAreU32 f) =
        true ∧
    ((pedersenExports.drop 1).all fun f => hasOutputBuffer f) = true ∧
    pedersenExports.length = 10 := by
  refine ⟨by decide, by decide, rfl⟩

/-- C10: serialization frame property of `PublicCircuitPublicInputs`.
`read` never assigns `call_context` (it retains exactly the destination's
prior value), `write` never emits `call_context`'s bytes, and every other
existing field of the result of `read` — and the final cursor — is
determined by the buffer alone, independent of the destination's prior
values. -/
theorem serialization_frame (k : ProtocolConstants) (l : List Nat)
    (pis pis' p : PublicCircuitPublicInputs Nat) (cc : CallContext Nat) :
    (readPublicCircuitPublicInputs k l pis).1.call_context = pis.call_context ∧
    writePublicCircuitPublicInputs { p with call_context := cc } =
      writePublicCircuitPublicInputs p ∧
    (readPublicCircuitPublicInputs k l pis).1 =
      { (readPublicCircuitPublicInputs k l pis').1 with
          call_context := pis.call_context } ∧
    (readPublicCircuitPublicInputs k l pis).2 =
      (readPublicCircuitPublicInputs k l pis').2 :=
  ⟨rfl, rfl, rfl, rfl⟩

end AztecAbi
